import Mathlib

/-!
Verification development for the ElementsFactory orchestration layer
(file src/src/app.js, class PeriodicTableApp).

The class is a state-holding controller over four fields: `elements` and
`config` (both initially null, filled by asynchronous loads), and the two
selection fields `currentTheme` and `currentLayout` (initially "light" and
"normal").  Its methods call two external collaborators: a parser
(loadConfig, loadElements) and a renderer (generate, downloadSVG), and
mutate the DOM container.

Shallow embedding choices, all read off the source:

* Controller state is the structure `PeriodicTableApp` with the four
  fields of the constructor; null becomes `none`.

* The renderer collaborator `renderer.generate` is a parameter of type
  `SvgGen` (a pure function, matching the deterministic-generator
  assumption of the collaborator contract).

* Asynchronous fetch outcomes of `parser.loadConfig()` and
  `parser.loadElements()` are parameters of type `Except String _`:
  `Except.error m` is a rejection whose message is `m` and a thrown JS
  error is propagated as the `Option String` component of `loadData`.

* Observable side effects (collaborator invocations, container innerHTML
  writes, downloads) are recorded in order as a `List Event` returned next
  to the new state.  `document.getElementById` possibly returning null is
  the boolean parameter `containerPresent`.

* console.log calls are pure logging and are not recorded.
-/

namespace ElementsFactory

/-- One periodic-table record, with the fields the source reads off an
element group (data-number, data-symbol, data-name, data-category). -/
structure ElementRecord where
  number : Nat
  symbol : String
  name : String
  category : String
  deriving DecidableEq

/-- The configuration object is opaque to the controller (it is only
stored and passed through), so it is embedded as an opaque serialized
value. -/
abbrev TableConfig := String

/-- Type of the external collaborator `renderer.generate`: a pure function
of (elements, config, theme, layout) producing serialized SVG markup. -/
abbrev SvgGen := List ElementRecord → TableConfig → String → String → String

/-- Observable effects of the controller, in program order:
invocations of the two parser loads, of `renderer.generate`, container
innerHTML writes, the error-markup write done by `showError`, and
`renderer.downloadSVG` invocations. -/
inductive Event where
  | loadConfigCall : Event
  | loadElementsCall : Event
  | generateCall (elements : List ElementRecord) (config : TableConfig)
      (theme layout : String) : Event
  | setInnerHTML (markup : String) : Event
  | showErrorMsg (message : String) : Event
  | downloadSVGCall (filename : String) : Event
  deriving DecidableEq

/-- The controller state: the four fields assigned in the constructor of
`PeriodicTableApp` (src/src/app.js lines 7-12). -/
structure PeriodicTableApp where
  elements : Option (List ElementRecord)
  config : Option TableConfig
  currentTheme : String
  currentLayout : String
  deriving DecidableEq

/-- The constructor (lines 7-12): both data fields null, theme "light",
layout "normal". -/
def PeriodicTableApp.new : PeriodicTableApp :=
  { elements := none, config := none,
    currentTheme := "light", currentLayout := "normal" }

/-- showError (lines 135-144): looks up the container; if absent it
returns doing nothing, otherwise it writes the error markup for the
message into the container (recorded as `Event.showErrorMsg message`). -/
def PeriodicTableApp.showError (containerPresent : Bool) (message : String) :
    List Event :=
  if containerPresent then [Event.showErrorMsg message] else []

/-- render (lines 96-120): if elements or config is not loaded, report
"No data loaded" via showError and return; otherwise call
`renderer.generate` with the stored elements, config, current theme and
current layout, then write the produced markup into the container when it
is present.  The controller state is not mutated by render, so only the
event list is returned. -/
def PeriodicTableApp.render (gen : SvgGen) (containerPresent : Bool)
    (app : PeriodicTableApp) : List Event :=
  match app.elements, app.config with
  | some es, some cfg =>
      Event.generateCall es cfg app.currentTheme app.currentLayout ::
        (if containerPresent then
          [Event.setInnerHTML (gen es cfg app.currentTheme app.currentLayout)]
        else [])
  | _, _ => PeriodicTableApp.showError containerPresent "No data loaded"

/-- The theme-select change listener (lines 49-52): assign
`currentTheme := value` and re-render.  No validation of the value occurs
in the source. -/
def PeriodicTableApp.setTheme (gen : SvgGen) (containerPresent : Bool)
    (app : PeriodicTableApp) (value : String) :
    PeriodicTableApp × List Event :=
  let app1 : PeriodicTableApp := { app with currentTheme := value }
  (app1, app1.render gen containerPresent)

/-- The size-select change listener (lines 56-59): assign
`currentLayout := value` and re-render.  No validation of the value occurs
in the source. -/
def PeriodicTableApp.setLayout (gen : SvgGen) (containerPresent : Bool)
    (app : PeriodicTableApp) (value : String) :
    PeriodicTableApp × List Event :=
  let app1 : PeriodicTableApp := { app with currentLayout := value }
  (app1, app1.render gen containerPresent)

/-- exportSVG (lines 125-129): unconditionally build the filename from the
current theme and layout with the literal "elementsfactory-" stem and
delegate to `renderer.downloadSVG`.  No field is assigned, so the state is
returned unchanged. -/
def PeriodicTableApp.exportSVG (app : PeriodicTableApp) :
    PeriodicTableApp × List Event :=
  (app,
    [Event.downloadSVGCall
      ("elementsfactory-" ++ app.currentTheme ++ "-" ++ app.currentLayout
        ++ ".svg")])

/-- loadData (lines 33-38): `this.config = await parser.loadConfig();`
then `this.elements = await parser.loadElements();`.  The two awaited
outcomes are the two `Except` parameters.  A rejection of the first load
assigns nothing; a rejection of the second happens after `config` has
already been assigned.  The `Option String` component is the propagated
rejection message (`none` on success). -/
def PeriodicTableApp.loadData (app : PeriodicTableApp)
    (configResult : Except String TableConfig)
    (elementsResult : Except String (List ElementRecord)) :
    PeriodicTableApp × Option String × List Event :=
  match configResult with
  | Except.error e => (app, some e, [Event.loadConfigCall])
  | Except.ok cfg =>
      let app1 : PeriodicTableApp := { app with config := some cfg }
      match elementsResult with
      | Except.error e =>
          (app1, some e, [Event.loadConfigCall, Event.loadElementsCall])
      | Except.ok es =>
          ({ app1 with elements := some es }, none,
            [Event.loadConfigCall, Event.loadElementsCall])

/-- init (lines 17-28): await loadData, then render (setupEventListeners
attaches DOM listeners and performs no state mutation, so it contributes
no event); any error thrown during loading is caught and reported via
`showError(error.message or the literal fallback text)` where the
fallback applies when the message is falsy, i.e. empty here. -/
def PeriodicTableApp.init (gen : SvgGen) (containerPresent : Bool)
    (app : PeriodicTableApp)
    (configResult : Except String TableConfig)
    (elementsResult : Except String (List ElementRecord)) :
    PeriodicTableApp × List Event :=
  match app.loadData configResult elementsResult with
  | (app1, some e, evs) =>
      (app1, evs ++ PeriodicTableApp.showError containerPresent
        (if e = "" then "Initialization failed" else e))
  | (app1, none, evs) => (app1, evs ++ app1.render gen containerPresent)

/-- The synchronous part of init (lines 17-20) executed before its first
suspension point, the await of `parser.loadConfig()` inside loadData: it
logs, issues the config fetch, and suspends.  No state field is assigned
before this point, and the state type has no in-flight guard field at
all. -/
def PeriodicTableApp.initBeforeFirstAwait (app : PeriodicTableApp) :
    PeriodicTableApp × List Event :=
  (app, [Event.loadConfigCall])

/-- Recognizer for `renderer.generate` invocation events. -/
def isGenerateCall : Event → Bool
  | Event.generateCall _ _ _ _ => true
  | _ => false

/-- Recognizer for `parser.loadConfig` invocation events. -/
def isLoadConfigCall : Event → Bool
  | Event.loadConfigCall => true
  | _ => false

/-- Recognizer for showError report events. -/
def isShowError : Event → Bool
  | Event.showErrorMsg _ => true
  | _ => false

/-- The `renderer.generate` invocations occurring in a trace, in order. -/
def genCalls (evs : List Event) : List Event := evs.filter isGenerateCall

/-- Sample element data used to evaluate the model at concrete inputs. -/
def sampleElements : List ElementRecord :=
  [{ number := 1, symbol := "H", name := "Hydrogen", category := "nonmetal" },
   { number := 2, symbol := "He", name := "Helium", category := "noble-gas" }]

/-- Sample opaque configuration value. -/
def sampleConfig : TableConfig := "default-config"

/-- A concrete deterministic generator for evaluating the model. -/
def sampleGen : SvgGen := fun _ _ theme layout =>
  "<svg data-theme=\"" ++ theme ++ "\" data-layout=\"" ++ layout ++ "\"></svg>"

/-- A controller state after a successful load, with the default theme and
layout. -/
def appLoaded : PeriodicTableApp :=
  { elements := some sampleElements, config := some sampleConfig,
    currentTheme := "light", currentLayout := "normal" }

/-- C1: in every controller state in which elements or config is not
loaded, render reports the "No data loaded" error through showError (the
report is the sole trace event when the container is present), never
invokes the generator, and — being a total function — never crashes. -/
theorem render_without_data_reports_no_data (gen : SvgGen)
    (containerPresent : Bool) (app : PeriodicTableApp)
    (h : app.elements = none ∨ app.config = none) :
    genCalls (app.render gen containerPresent) = []
    ∧ app.render gen containerPresent
        = PeriodicTableApp.showError containerPresent "No data loaded"
    ∧ app.render gen true = [Event.showErrorMsg "No data loaded"] := by
  rcases h with h | h
  · refine ⟨?_, ?_, ?_⟩ <;>
      simp [PeriodicTableApp.render, h, genCalls, isGenerateCall,
        PeriodicTableApp.showError]
  · rcases he : app.elements with _ | es <;>
      exact ⟨by simp [PeriodicTableApp.render, h, he, genCalls, isGenerateCall,
          PeriodicTableApp.showError],
        by simp [PeriodicTableApp.render, h, he],
        by simp [PeriodicTableApp.render, h, he, PeriodicTableApp.showError]⟩

/-- Witness for C1: the freshly constructed controller at concrete
inputs. -/
theorem render_without_data_witness :
    genCalls (PeriodicTableApp.new.render sampleGen true) = []
    ∧ PeriodicTableApp.new.render sampleGen true
        = PeriodicTableApp.showError true "No data loaded"
    ∧ PeriodicTableApp.new.render sampleGen true
        = [Event.showErrorMsg "No data loaded"] :=
  render_without_data_reports_no_data sampleGen true PeriodicTableApp.new
    (Or.inl rfl)

/-- C2: on a loaded controller, render invokes the generator exactly once,
with the stored elements and config and the current theme and layout; a
setTheme followed by its re-render hands the generator exactly the new
theme and the previously-set layout; and the other operations reachable
without render (exportSVG, showError) never invoke the generator, render
being the only call site in the source. -/
theorem render_invokes_generator_once_with_state (gen : SvgGen)
    (containerPresent : Bool) (app : PeriodicTableApp)
    (es : List ElementRecord) (cfg : TableConfig)
    (he : app.elements = some es) (hc : app.config = some cfg)
    (t : String) :
    genCalls (app.render gen containerPresent)
        = [Event.generateCall es cfg app.currentTheme app.currentLayout]
    ∧ genCalls (app.setTheme gen containerPresent t).2
        = [Event.generateCall es cfg t app.currentLayout]
    ∧ genCalls (app.exportSVG).2 = []
    ∧ (∀ msg, genCalls (PeriodicTableApp.showError containerPresent msg)
        = []) := by
  refine ⟨?_, ?_, ?_, fun msg => ?_⟩ <;>
    cases containerPresent <;>
      simp [PeriodicTableApp.render, PeriodicTableApp.setTheme,
        PeriodicTableApp.exportSVG, PeriodicTableApp.showError, genCalls,
        isGenerateCall, he, hc]

/-- Witness for C2: the loaded sample controller, switching the theme to
"dark". -/
theorem render_invokes_generator_witness :
    genCalls (appLoaded.render sampleGen true)
        = [Event.generateCall sampleElements sampleConfig "light" "normal"]
    ∧ genCalls (appLoaded.setTheme sampleGen true "dark").2
        = [Event.generateCall sampleElements sampleConfig "dark" "normal"]
    ∧ genCalls (appLoaded.exportSVG).2 = []
    ∧ (∀ msg, genCalls (PeriodicTableApp.showError true msg) = []) :=
  render_invokes_generator_once_with_state sampleGen true appLoaded
    sampleElements sampleConfig rfl rfl "dark"

/-- C9: at construction, before any init, the state already holds theme
"light" and layout "normal", with both data fields absent. -/
theorem constructor_defaults :
    PeriodicTableApp.new.currentTheme = "light"
    ∧ PeriodicTableApp.new.currentLayout = "normal"
    ∧ PeriodicTableApp.new.elements = none
    ∧ PeriodicTableApp.new.config = none :=
  ⟨rfl, rfl, rfl, rfl⟩

/-- C10: exportSVG leaves every controller field unchanged: it only reads
the state to build the filename and delegates the download. -/
theorem exportSVG_preserves_state (app : PeriodicTableApp) :
    (app.exportSVG).1.elements = app.elements
    ∧ (app.exportSVG).1.config = app.config
    ∧ (app.exportSVG).1.currentTheme = app.currentTheme
    ∧ (app.exportSVG).1.currentLayout = app.currentLayout :=
  ⟨rfl, rfl, rfl, rfl⟩

/-- C3 counterexample: setTheme with a value outside any theme
enumeration does mutate the state — the change listener assigns the raw
value with no validation, so the claimed InvalidTheme rejection does not
exist. -/
theorem setTheme_invalid_value_mutates_state :
    (appLoaded.setTheme sampleGen true "definitely-not-a-theme").1.currentTheme
        = "definitely-not-a-theme"
    ∧ appLoaded.currentTheme = "light"
    ∧ "definitely-not-a-theme" ≠ "light" :=
  ⟨rfl, rfl, by decide⟩

/-- C3 amended: setTheme accepts every input value, including values
outside any theme enumeration: it always sets currentTheme to the given
value and triggers a re-render of the updated state — on a loaded
controller the generator is invoked exactly once and receives the raw
value — with no InvalidTheme error path in the source; symmetrically for
setLayout and InvalidLayout. -/
theorem setTheme_accepts_any_value (gen : SvgGen) (containerPresent : Bool)
    (app : PeriodicTableApp) (v w : String) :
    (app.setTheme gen containerPresent v).1
        = { app with currentTheme := v }
    ∧ (app.setTheme gen containerPresent v).2
        = ({ app with currentTheme := v } :
            PeriodicTableApp).render gen containerPresent
    ∧ (genCalls (app.setTheme gen containerPresent v).2
        = match app.elements, app.config with
          | some es, some cfg =>
              [Event.generateCall es cfg v app.currentLayout]
          | _, _ => [])
    ∧ (app.setLayout gen containerPresent w).1
        = { app with currentLayout := w }
    ∧ (app.setLayout gen containerPresent w).2
        = ({ app with currentLayout := w } :
            PeriodicTableApp).render gen containerPresent
    ∧ (genCalls (app.setLayout gen containerPresent w).2
        = match app.elements, app.config with
          | some es, some cfg =>
              [Event.generateCall es cfg app.currentTheme w]
          | _, _ => []) := by
  refine ⟨rfl, rfl, ?_, rfl, rfl, ?_⟩ <;>
    rcases he : app.elements with _ | es <;>
      rcases hc : app.config with _ | cfg <;>
        cases containerPresent <;>
          simp [PeriodicTableApp.setTheme, PeriodicTableApp.setLayout,
            PeriodicTableApp.render, PeriodicTableApp.showError, genCalls,
            isGenerateCall, he, hc]

/-- C5 counterexample: with theme light and layout compact the derived
filename is "elementsfactory-light-compact.svg", not the claimed
"table-light-compact.svg": the stem hardcoded at line 126 is
"elementsfactory", not "table". -/
theorem exportSVG_concrete_filename_counterexample :
    (({ appLoaded with currentLayout := "compact" } :
        PeriodicTableApp).exportSVG).2
        = [Event.downloadSVGCall "elementsfactory-light-compact.svg"]
    ∧ "elementsfactory-light-compact.svg" ≠ "table-light-compact.svg" :=
  ⟨rfl, by decide⟩

/-- C5 amended: for every state the export filename is exactly
"elementsfactory-" ++ theme ++ "-" ++ layout ++ ".svg"; in the concrete
light/compact scenario it is "elementsfactory-light-compact.svg". -/
theorem exportSVG_filename_format (app : PeriodicTableApp) :
    (app.exportSVG).2
        = [Event.downloadSVGCall
            ("elementsfactory-" ++ app.currentTheme ++ "-"
              ++ app.currentLayout ++ ".svg")]
    ∧ (({ appLoaded with currentLayout := "compact" } :
          PeriodicTableApp).exportSVG).2
        = [Event.downloadSVGCall "elementsfactory-light-compact.svg"] :=
  ⟨rfl, rfl⟩

/-- C6 counterexample: on the freshly constructed controller, on which no
render has ever happened (let alone succeeded), exportSVG does not fail:
it goes ahead and delegates a download, and reports no error. There is no
NothingToExport guard at lines 125-129. -/
theorem exportSVG_without_render_still_downloads :
    (PeriodicTableApp.new.exportSVG).2
        = [Event.downloadSVGCall "elementsfactory-light-normal.svg"]
    ∧ (PeriodicTableApp.new.exportSVG).2.filter isShowError = [] :=
  ⟨rfl, rfl⟩

/-- C6 amended: exportSVG never fails at the controller level: for every
state, regardless of render history, it reports no error and delegates
exactly one download. -/
theorem exportSVG_unconditional_download (app : PeriodicTableApp) :
    (app.exportSVG).2.filter isShowError = []
    ∧ (app.exportSVG).2
        = [Event.downloadSVGCall
            ("elementsfactory-" ++ app.currentTheme ++ "-"
              ++ app.currentLayout ++ ".svg")] :=
  ⟨rfl, rfl⟩

/-- C7: calling setTheme with the already-current theme leaves the state
equal to the original, yet re-renders, and a second identical call
re-renders again with a trace identical to the first (the generator being
a function, its output is deterministic), each trace holding exactly the
one expected generator invocation. -/
theorem setTheme_same_value_rerenders_identically (gen : SvgGen)
    (containerPresent : Bool) (app : PeriodicTableApp)
    (es : List ElementRecord) (cfg : TableConfig) (t : String)
    (he : app.elements = some es) (hc : app.config = some cfg)
    (ht : app.currentTheme = t) :
    (app.setTheme gen containerPresent t).1 = app
    ∧ genCalls (app.setTheme gen containerPresent t).2
        = [Event.generateCall es cfg t app.currentLayout]
    ∧ genCalls ((app.setTheme gen containerPresent t).1.setTheme gen
          containerPresent t).2
        = [Event.generateCall es cfg t app.currentLayout]
    ∧ ((app.setTheme gen containerPresent t).1.setTheme gen
          containerPresent t).2
        = (app.setTheme gen containerPresent t).2 := by
  have hstate : (app.setTheme gen containerPresent t).1 = app := by
    subst ht; rfl
  refine ⟨hstate, ?_, ?_, ?_⟩
  · cases containerPresent <;>
      simp [PeriodicTableApp.setTheme, PeriodicTableApp.render, genCalls,
        isGenerateCall, he, hc]
  · rw [hstate]
    cases containerPresent <;>
      simp [PeriodicTableApp.setTheme, PeriodicTableApp.render, genCalls,
        isGenerateCall, he, hc]
  · rw [hstate]

/-- Witness for C7: the loaded sample controller whose theme is already
"light". -/
theorem setTheme_same_value_witness :
    (appLoaded.setTheme sampleGen true "light").1 = appLoaded
    ∧ genCalls (appLoaded.setTheme sampleGen true "light").2
        = [Event.generateCall sampleElements sampleConfig "light" "normal"]
    ∧ genCalls ((appLoaded.setTheme sampleGen true "light").1.setTheme
          sampleGen true "light").2
        = [Event.generateCall sampleElements sampleConfig "light" "normal"]
    ∧ ((appLoaded.setTheme sampleGen true "light").1.setTheme sampleGen
          true "light").2
        = (appLoaded.setTheme sampleGen true "light").2 :=
  setTheme_same_value_rerenders_identically sampleGen true appLoaded
    sampleElements sampleConfig "light" rfl rfl rfl

/-- C4 counterexample: when the config load succeeds and the element load
rejects, init leaves LoadedData partially populated — config is set while
elements stay absent — because loadData assigns this.config before
awaiting the element fetch.  The load is therefore not all-or-nothing. -/
theorem init_partial_population_on_elements_failure :
    ((PeriodicTableApp.new.init sampleGen true (Except.ok sampleConfig)
        (Except.error "network failure")).1.config = some sampleConfig)
    ∧ ((PeriodicTableApp.new.init sampleGen true (Except.ok sampleConfig)
        (Except.error "network failure")).1.elements = none)
    ∧ PeriodicTableApp.new.config = none :=
  ⟨rfl, rfl, rfl⟩

/-- C4 amended: init reports a DataProvider rejection by its cause message
and performs zero render passes on failure and exactly one generator
invocation (with the current theme and layout) on success; theme and
layout are never touched; but the load is not all-or-nothing: a config
rejection leaves both data fields unchanged, while an element rejection
after a successful config load leaves config set and elements unchanged
(partially populated); on success both fields are set. -/
theorem init_state_and_render_characterization (gen : SvgGen)
    (containerPresent : Bool) (app : PeriodicTableApp)
    (cr : Except String TableConfig)
    (er : Except String (List ElementRecord)) :
    (app.init gen containerPresent cr er).1.currentTheme = app.currentTheme
    ∧ (app.init gen containerPresent cr er).1.currentLayout
        = app.currentLayout
    ∧ ((app.init gen containerPresent cr er).1.config
        = match cr with
          | Except.ok c => some c
          | Except.error _ => app.config)
    ∧ ((app.init gen containerPresent cr er).1.elements
        = match cr, er with
          | Except.ok _, Except.ok es => some es
          | _, _ => app.elements)
    ∧ (genCalls (app.init gen containerPresent cr er).2
        = match cr, er with
          | Except.ok c, Except.ok es =>
              [Event.generateCall es c app.currentTheme app.currentLayout]
          | _, _ => [])
    ∧ (∀ m, (app.loadData cr er).2.1 = some m →
          (app.init gen true cr er).2.getLast?
            = some (Event.showErrorMsg
                (if m = "" then "Initialization failed" else m))) := by
  rcases cr with e | c <;> rcases er with e2 | es <;>
    refine ⟨?_, ?_, ?_, ?_, ?_, fun m hm => ?_⟩ <;>
      cases containerPresent <;>
        simp_all [PeriodicTableApp.init, PeriodicTableApp.loadData,
          PeriodicTableApp.render, PeriodicTableApp.showError, genCalls,
          isGenerateCall]

/-- Witness for C4: a rejected config load with the concrete message
"boom" ends the trace with the report of that cause, and a successful
concrete load produces exactly one generator invocation. -/
theorem init_characterization_witness :
    (PeriodicTableApp.new.init sampleGen true (Except.error "boom")
        (Except.ok sampleElements)).2.getLast?
      = some (Event.showErrorMsg "boom") := by
  have h := (init_state_and_render_characterization sampleGen true
      PeriodicTableApp.new (Except.error "boom")
      (Except.ok sampleElements)).2.2.2.2.2 "boom" rfl
  simpa using h

/-- C8 counterexample: with a first init suspended at its config fetch
(which left the state untouched and set no guard, there being no guard
field), a second init call is not rejected: it proceeds straight to the
loads — the combined trace fetches the config twice, i.e. data is
double-loaded — and completes with no error report. -/
theorem double_init_not_rejected :
    PeriodicTableApp.new.initBeforeFirstAwait
        = (PeriodicTableApp.new, [Event.loadConfigCall])
    ∧ (((PeriodicTableApp.new.initBeforeFirstAwait).2
          ++ (PeriodicTableApp.new.init sampleGen true
              (Except.ok sampleConfig)
              (Except.ok sampleElements)).2).filter isLoadConfigCall).length
        = 2
    ∧ (PeriodicTableApp.new.init sampleGen true (Except.ok sampleConfig)
          (Except.ok sampleElements)).2.filter isShowError = [] :=
  ⟨rfl, rfl, rfl⟩

/-- C8 amended: the controller has no re-entrancy guard: the part of init
before its first suspension point leaves the state unchanged (no in-flight
flag exists), and every init call — in particular a second one issued
while another is suspended — begins by issuing the config fetch again
rather than being rejected; no AlreadyInitializing error exists in the
source. -/
theorem init_never_rejects_reentry (gen : SvgGen) (containerPresent : Bool)
    (app : PeriodicTableApp) (cr : Except String TableConfig)
    (er : Except String (List ElementRecord)) :
    (app.initBeforeFirstAwait).1 = app
    ∧ (app.init gen containerPresent cr er).2.head?
        = some Event.loadConfigCall := by
  refine ⟨rfl, ?_⟩
  rcases cr with e | c <;> rcases er with e2 | es <;>
    simp [PeriodicTableApp.init, PeriodicTableApp.loadData]

end ElementsFactory
